import Mathlib

/-!
Verification of the real-time collaboration hub (`BoardRoom` durable object,
`src/durable-objects/board-room.ts`) of the Sculptor-AI/kanban worker.

The hub is embedded shallowly:

* a live transport connection is an abstract handle, modelled as `Nat`;
* the hub state holds the accepted connection set (`state.getWebSockets()`)
  and the `sessions : Map<WebSocket, {userId, username}>` registry, modelled
  as an association list with the JS `Map` operations `get`/`set`/`delete`;
* JSON values are modelled by `JVal`; a JSON object is an association list of
  string keys, and the JS object-spread override `{...p, k: v}` is modelled
  by removing the shadowed key and appending the override (`setField`), which
  preserves the key-to-value mapping of the resulting object;
* an outbound delivery attempt is recorded as a `(connection, event)` pair;
  the code swallows per-connection send failures, so a recorded attempt does
  not assert successful receipt;
* the external D1 lookups (session row by token hash, board membership) are
  passed in as functions, and the hosting runtime is reflected only in that a
  closed or errored socket is removed from the accepted connection set.
-/

namespace Kanban

/-- A JSON scalar or null; enough structure for the payload fields the hub
itself reads or writes (strings and the numeric presence count). -/
inductive JVal where
  | str : String → JVal
  | num : Int → JVal
  | bool : Bool → JVal
  | null : JVal
deriving DecidableEq

/-- A JSON object, as an association list of fields. -/
abbrev JObj := List (String × JVal)

/-- A `WSMessage` / event frame: `{type: string, payload: object}`. -/
structure Event where
  type : String
  payload : JObj
deriving DecidableEq

/-- The identity stored in the registry for a connection:
`{ userId: string; username: string }`. -/
structure Identity where
  userId : String
  username : String
deriving DecidableEq

/-- A row returned by the session lookup query (`s.user_id`, `u.username`,
`u.display_name`). -/
structure SessionRow where
  user_id : String
  username : String
  display_name : String
deriving DecidableEq

/-- `session.display_name || session.username`: JS `||` falls back when the
display name is the empty string (falsy). -/
def displayNameOr (row : SessionRow) : String :=
  if row.display_name = "" then row.username else row.display_name

/-- First binding of a key in a JSON object (field lookup). -/
def getField : JObj → String → Option JVal
  | [], _ => none
  | q :: rest, k => if q.1 = k then some q.2 else getField rest k

/-- Remove every binding of a key. -/
def eraseKey : JObj → String → JObj
  | [], _ => []
  | q :: rest, k => if q.1 = k then eraseKey rest k else q :: eraseKey rest k

/-- JS spread override `{...p, k: v}`: the key `k` now maps to `v`, every
other field of `p` is kept. -/
def setField (p : JObj) (k : String) (v : JVal) : JObj :=
  eraseKey p k ++ [(k, v)]

/-- The registry: `Map<WebSocket, {userId, username}>` as an association
list keyed by connection handles. -/
abbrev Registry := List (Nat × Identity)

/-- JS `Map.get`. -/
def mapGet : Registry → Nat → Option Identity
  | [], _ => none
  | q :: rest, k => if q.1 = k then some q.2 else mapGet rest k

/-- JS `Map.set`: replace the binding in place when the key is present,
append it otherwise. -/
def mapSet : Registry → Nat → Identity → Registry
  | [], k, v => [(k, v)]
  | q :: rest, k, v => if q.1 = k then (k, v) :: rest else q :: mapSet rest k v

/-- JS `Map.delete`: drop the binding of the key. -/
def mapDelete : Registry → Nat → Registry
  | [], _ => []
  | q :: rest, k => if q.1 = k then rest else q :: mapDelete rest k

/-- State owned by one `BoardRoom` instance: the accepted transport
connection set (`this.state.getWebSockets()`) and the identity registry
(`this.sessions`). -/
structure HubState where
  conns : List Nat
  sessions : Registry
deriving DecidableEq

/-- `uniqueUserCount` getter: iterate the registry values, insert each
`userId` into a set, return its size.  `addUser` is one `Set.add` step. -/
def addUser (acc : List String) (u : String) : List String :=
  if u ∈ acc then acc else acc ++ [u]

/-- `private get uniqueUserCount(): number`. -/
def uniqueUserCount (sessions : Registry) : Nat :=
  (sessions.foldl (fun acc q => addUser acc q.2.userId) []).length

/-- `private broadcast(message, exclude?)`: serialize once, then attempt
delivery to every accepted connection other than `exclude`. -/
def broadcast (conns : List Nat) (message : Event) (ex : Option Nat) :
    List (Nat × Event) :=
  (conns.filter fun c => decide (some c ≠ ex)).map fun c => (c, message)

/-- The `user_joined` event constructed in `handleWebSocket`. -/
def userJoinedEvent (ident : Identity) (count : Nat) : Event :=
  ⟨"user_joined",
    [("userId", .str ident.userId), ("username", .str ident.username),
     ("onlineCount", .num count)]⟩

/-- The `user_left` event constructed in `webSocketClose`. -/
def userLeftEvent (ident : Identity) (count : Nat) : Event :=
  ⟨"user_left",
    [("userId", .str ident.userId), ("username", .str ident.username),
     ("onlineCount", .num count)]⟩

/-- One `handleWebSocket` call: HTTP status, hub state after the call, and
the delivery attempts it made (the direct send to the new connection first,
then the broadcast to the others). -/
structure UpgradeOutcome where
  status : Nat
  state : HubState
  sent : List (Nat × Event)
deriving DecidableEq

/-- `private async handleWebSocket(request)`.  `rs` is the session lookup
(token → row of an unexpired session, through `hashToken` and the D1 query)
and `im` the board-membership lookup; `server` is the fresh server end of the
`WebSocketPair`.  A JS-falsy query parameter (absent, or the empty string)
fails the `!token || !boardId` guard. -/
def handleWebSocket (rs : String → Option SessionRow)
    (im : String → String → Bool) (token boardId : Option String)
    (server : Nat) (s : HubState) : UpgradeOutcome :=
  match token, boardId with
  | some t, some b =>
    if t = "" ∨ b = "" then ⟨400, s, []⟩
    else
      match rs t with
      | none => ⟨401, s, []⟩
      | some row =>
        if im b row.user_id then
          let ident : Identity := ⟨row.user_id, displayNameOr row⟩
          let conns' := s.conns ++ [server]
          let sessions' := mapSet s.sessions server ident
          let evt := userJoinedEvent ident (uniqueUserCount sessions')
          ⟨101, ⟨conns', sessions'⟩,
            (server, evt) :: broadcast conns' evt (some server)⟩
        else ⟨403, s, []⟩
  | _, _ => ⟨400, s, []⟩

/-- Message types of the cursor/drag switch cases. -/
def cursorDragType (t : String) : Bool :=
  t == "cursor_move" || t == "card_drag_start" || t == "card_drag_end"

/-- `async webSocketMessage(ws, message)`.  `parsed` is the result of
`JSON.parse` on the raw frame (`none` when it throws; the `catch` block only
logs, so a parse failure produces no deliveries and no state change). -/
def webSocketMessage (s : HubState) (ws : Nat) (parsed : Option Event) :
    HubState × List (Nat × Event) :=
  match mapGet s.sessions ws with
  | none => (s, [])
  | some session =>
    match parsed with
    | none => (s, [])
    | some data =>
      if data.type = "ping" then (s, [(ws, ⟨"pong", []⟩)])
      else if cursorDragType data.type then
        (s, broadcast s.conns
          ⟨data.type,
            setField (setField data.payload "userId" (.str session.userId))
              "username" (.str session.username)⟩ (some ws))
      else
        (s, broadcast s.conns
          ⟨data.type, setField data.payload "userId" (.str session.userId)⟩
          (some ws))

/-- `async webSocketClose(ws, code, reason)`.  The hosting runtime removes
the closed socket from the accepted set; the handler looks up the identity,
deletes the registry entry, and, when an identity was registered, broadcasts
`user_left` with the count recomputed from the shrunken registry. -/
def webSocketClose (s : HubState) (ws : Nat) : HubState × List (Nat × Event) :=
  let conns' := s.conns.erase ws
  let sessions' := mapDelete s.sessions ws
  match mapGet s.sessions ws with
  | none => (⟨conns', sessions'⟩, [])
  | some session =>
    (⟨conns', sessions'⟩,
      broadcast conns' (userLeftEvent session (uniqueUserCount sessions')) none)

/-- `async webSocketError(ws, error)`: log and delete the registry entry
(the runtime likewise drops the socket from the accepted set). -/
def webSocketError (s : HubState) (ws : Nat) : HubState × List (Nat × Event) :=
  (⟨s.conns.erase ws, mapDelete s.sessions ws⟩, [])

/-- The `POST /broadcast` branch of `fetch`: relay the posted event through
`broadcast` with no excluded connection and answer `OK`. -/
def relayFetch (s : HubState) (message : Event) :
    HubState × List (Nat × Event) × String :=
  (s, broadcast s.conns message none, "OK")

/-! ### Supporting lemmas -/

theorem addUser_toFinset (acc : List String) (u : String) :
    (addUser acc u).toFinset = insert u acc.toFinset := by
  unfold addUser
  split
  · rename_i h
    rw [Finset.insert_eq_self.mpr (List.mem_toFinset.mpr h)]
  · simp [List.toFinset_append, Finset.union_comm, Finset.insert_eq]

theorem addUser_nodup (acc : List String) (u : String) (h : acc.Nodup) :
    (addUser acc u).Nodup := by
  unfold addUser
  split
  · exact h
  · rename_i hmem
    simp [List.nodup_append, h, hmem]

theorem foldl_addUser_toFinset (l : List String) :
    ∀ acc : List String, (l.foldl addUser acc).toFinset = acc.toFinset ∪ l.toFinset := by
  induction l with
  | nil => intro acc; simp
  | cons x l ih =>
    intro acc
    rw [List.foldl_cons, ih, addUser_toFinset]
    simp [Finset.insert_union, Finset.union_insert]

theorem foldl_addUser_nodup (l : List String) :
    ∀ acc : List String, acc.Nodup → (l.foldl addUser acc).Nodup := by
  induction l with
  | nil => intro acc h; exact h
  | cons x l ih => intro acc h; exact ih _ (addUser_nodup acc x h)

theorem uniqueUserCount_eq_card (sessions : Registry) :
    uniqueUserCount sessions
      = ((sessions.map fun q => q.2.userId).toFinset).card := by
  unfold uniqueUserCount
  rw [show (fun (acc : List String) (q : Nat × Identity) => addUser acc q.2.userId)
      = fun acc q => addUser acc ((fun r : Nat × Identity => r.2.userId) q) from rfl,
    ← List.foldl_map]
  have hnd := foldl_addUser_nodup (sessions.map fun q => q.2.userId) [] List.nodup_nil
  have hfs := foldl_addUser_toFinset (sessions.map fun q => q.2.userId) []
  rw [← List.toFinset_card_of_nodup hnd, hfs]
  simp

theorem uniqueUserCount_append (m : Registry) (k : Nat) (ident : Identity) :
    uniqueUserCount (m ++ [(k, ident)])
      = (if ident.userId ∈ m.map (fun q => q.2.userId) then uniqueUserCount m
         else uniqueUserCount m + 1) := by
  rw [uniqueUserCount_eq_card, uniqueUserCount_eq_card, List.map_append]
  simp only [List.map_cons, List.map_nil, List.toFinset_append, List.toFinset_cons,
    List.toFinset_nil]
  rw [show insert ident.userId (∅ : Finset String) = {ident.userId} from rfl,
    Finset.union_comm, ← Finset.insert_eq]
  by_cases h : ident.userId ∈ m.map (fun q => q.2.userId)
  · rw [if_pos h, Finset.insert_eq_self.mpr (List.mem_toFinset.mpr h)]
  · rw [if_neg h, Finset.card_insert_of_not_mem (fun hc => h (List.mem_toFinset.mp hc))]

theorem mapSet_fresh (m : Registry) (k : Nat) (v : Identity)
    (h : mapGet m k = none) : mapSet m k v = m ++ [(k, v)] := by
  induction m with
  | nil => rfl
  | cons q rest ih =>
    unfold mapGet at h
    unfold mapSet
    by_cases hq : q.1 = k
    · rw [if_pos hq] at h; exact absurd h (by simp)
    · rw [if_neg hq] at h
      rw [if_neg hq, ih h, List.cons_append]

theorem mapDelete_absent (m : Registry) (k : Nat)
    (h : mapGet m k = none) : mapDelete m k = m := by
  induction m with
  | nil => rfl
  | cons q rest ih =>
    unfold mapGet at h
    unfold mapDelete
    by_cases hq : q.1 = k
    · rw [if_pos hq] at h; exact absurd h (by simp)
    · rw [if_neg hq] at h
      rw [if_neg hq, ih h]

theorem mem_broadcast (conns : List Nat) (message : Event) (ex : Option Nat)
    (c : Nat) (e : Event) :
    (c, e) ∈ broadcast conns message ex
      ↔ c ∈ conns ∧ some c ≠ ex ∧ e = message := by
  unfold broadcast
  simp only [List.mem_map, List.mem_filter, decide_eq_true_eq, Prod.mk.injEq]
  constructor
  · rintro ⟨x, ⟨hx, hne⟩, hxc, hem⟩
    exact ⟨hxc ▸ hx, hxc ▸ hne, hem.symm⟩
  · rintro ⟨hc, hne, he⟩
    exact ⟨c, ⟨hc, hne⟩, rfl, he.symm⟩

theorem broadcast_not_self (conns : List Nat) (message : Event) (x : Nat)
    (e : Event) : (x, e) ∉ broadcast conns message (some x) := by
  intro h
  exact ((mem_broadcast conns message (some x) x e).mp h).2.1 rfl

theorem broadcast_snd (conns : List Nat) (message : Event) (ex : Option Nat)
    (p : Nat × Event) (h : p ∈ broadcast conns message ex) : p.2 = message := by
  unfold broadcast at h
  simp only [List.mem_map, List.mem_filter] at h
  obtain ⟨x, _, hx⟩ := h
  exact (congrArg Prod.snd hx).symm

theorem eraseKey_append (a b : JObj) (k : String) :
    eraseKey (a ++ b) k = eraseKey a k ++ eraseKey b k := by
  induction a with
  | nil => rfl
  | cons q rest ih =>
    by_cases hq : q.1 = k
    · simp only [List.cons_append, eraseKey, if_pos hq]
      exact ih
    · simp only [List.cons_append, eraseKey, if_neg hq]
      rw [show rest.append b = rest ++ b from rfl, ih]

theorem getField_eraseKey_self (p : JObj) (k : String) :
    getField (eraseKey p k) k = none := by
  induction p with
  | nil => rfl
  | cons q rest ih =>
    by_cases hq : q.1 = k
    · simp only [eraseKey, if_pos hq]; exact ih
    · simp only [eraseKey, if_neg hq, getField]; exact ih

theorem getField_eraseKey_ne (p : JObj) (k k' : String) (h : ¬ k' = k) :
    getField (eraseKey p k) k' = getField p k' := by
  induction p with
  | nil => rfl
  | cons q rest ih =>
    by_cases hq : q.1 = k
    · have hq' : ¬ q.1 = k' := fun hc => h (hc ▸ hq)
      simp only [eraseKey, if_pos hq, getField, if_neg hq', ih]
    · by_cases hq' : q.1 = k'
      · simp only [eraseKey, if_neg hq, getField, if_pos hq']
      · simp only [eraseKey, if_neg hq, getField, if_neg hq', ih]

theorem getField_append_none (a b : JObj) (k : String)
    (h : getField a k = none) : getField (a ++ b) k = getField b k := by
  induction a with
  | nil => rfl
  | cons q rest ih =>
    by_cases hq : q.1 = k
    · simp only [getField, if_pos hq] at h
      exact Option.noConfusion h
    · simp only [getField, if_neg hq] at h
      simp only [List.cons_append, getField, if_neg hq]
      rw [show rest.append b = rest ++ b from rfl, ih h]

theorem getField_setField_self (p : JObj) (k : String) (v : JVal) :
    getField (setField p k v) k = some v := by
  unfold setField
  rw [getField_append_none _ _ _ (getField_eraseKey_self p k)]
  unfold getField
  rw [if_pos rfl]

/-! ### Claim theorems -/

/-- C1: for every state of the registry, `uniqueUserCount` equals the number
of distinct `userId` values among the registered connections, so a user
holding several simultaneous connections counts exactly once (second
conjunct: registering a further connection of an already-present user leaves
the count unchanged).  The count is a pure function of the registry alone —
`HubState` carries no incremental counter — so it is recomputed from the
registry on each use. -/
theorem presence_count_is_distinct_user_count :
    ∀ sessions : Registry,
      uniqueUserCount sessions
          = ((sessions.map fun q => q.2.userId).toFinset).card
        ∧ ∀ (k : Nat) (ident : Identity),
            ident.userId ∈ sessions.map (fun q => q.2.userId) →
            uniqueUserCount (sessions ++ [(k, ident)]) = uniqueUserCount sessions := by
  intro sessions
  refine ⟨uniqueUserCount_eq_card sessions, ?_⟩
  intro k ident h
  rw [uniqueUserCount_append, if_pos h]

/-- C1 witness: a registry where user `A` holds one connection, then gains a
second one — the distinct count stays `1`. -/
theorem presence_count_is_distinct_user_count_witness :
    (uniqueUserCount [(0, ⟨"A", "Alice"⟩)]
        = (([((0 : Nat), (⟨"A", "Alice"⟩ : Identity))].map fun q => q.2.userId).toFinset).card)
    ∧ (Identity.userId ⟨"A", "Alice"⟩
         ∈ [((0 : Nat), (⟨"A", "Alice"⟩ : Identity))].map (fun q => q.2.userId))
    ∧ uniqueUserCount ([(0, ⟨"A", "Alice"⟩)] ++ [(7, ⟨"A", "Alice"⟩)])
        = uniqueUserCount [(0, ⟨"A", "Alice"⟩)] :=
  ⟨(presence_count_is_distinct_user_count [(0, ⟨"A", "Alice"⟩)]).1, by decide,
    (presence_count_is_distinct_user_count [(0, ⟨"A", "Alice"⟩)]).2 7 ⟨"A", "Alice"⟩
      (by decide)⟩

/-- C2: for every upgrade whose token resolves to a live session (`rs t =
some row`) of a board member, the hub accepts the fresh connection, inserts
it with its identity into the registry (which gains exactly one entry), sends
the new connection a `user_joined` event with its own `userId`, `username`
and the presence count recomputed after the insertion, then broadcasts the
same event to all other connections excluding the new one; the presence
count changes by `0` when the user was already connected and by `+1`
otherwise. -/
theorem upgrade_success_behavior (rs : String → Option SessionRow)
    (im : String → String → Bool) (t b : String) (server : Nat) (s : HubState)
    (row : SessionRow) (ht : ¬ t = "") (hb : ¬ b = "")
    (hrs : rs t = some row) (him : im b row.user_id = true)
    (hfresh : mapGet s.sessions server = none) :
    handleWebSocket rs im (some t) (some b) server s
        = ⟨101,
            ⟨s.conns ++ [server],
              s.sessions ++ [(server, ⟨row.user_id, displayNameOr row⟩)]⟩,
            (server, userJoinedEvent ⟨row.user_id, displayNameOr row⟩
                (uniqueUserCount
                  (s.sessions ++ [(server, ⟨row.user_id, displayNameOr row⟩)])))
              :: broadcast (s.conns ++ [server])
                  (userJoinedEvent ⟨row.user_id, displayNameOr row⟩
                    (uniqueUserCount
                      (s.sessions ++ [(server, ⟨row.user_id, displayNameOr row⟩)])))
                  (some server)⟩
      ∧ (s.sessions ++ [(server, (⟨row.user_id, displayNameOr row⟩ : Identity))]).length
          = s.sessions.length + 1
      ∧ uniqueUserCount (s.sessions ++ [(server, ⟨row.user_id, displayNameOr row⟩)])
          = (if row.user_id ∈ s.sessions.map (fun q => q.2.userId)
             then uniqueUserCount s.sessions else uniqueUserCount s.sessions + 1)
      ∧ ∀ c ∈ s.conns, ¬ c = server →
          (c, userJoinedEvent ⟨row.user_id, displayNameOr row⟩
              (uniqueUserCount
                (s.sessions ++ [(server, ⟨row.user_id, displayNameOr row⟩)])))
            ∈ broadcast (s.conns ++ [server])
                (userJoinedEvent ⟨row.user_id, displayNameOr row⟩
                  (uniqueUserCount
                    (s.sessions ++ [(server, ⟨row.user_id, displayNameOr row⟩)])))
                (some server) := by
  have hcond : ¬ (t = "" ∨ b = "") := fun h => h.elim ht hb
  refine ⟨?_, by simp, ?_, ?_⟩
  · simp only [handleWebSocket, if_neg hcond, hrs, him, if_true,
      mapSet_fresh s.sessions server _ hfresh]
  · exact uniqueUserCount_append s.sessions server ⟨row.user_id, displayNameOr row⟩
  · intro c hc hcne
    exact (mem_broadcast _ _ _ _ _).mpr
      ⟨List.mem_append_left _ hc, by simpa using hcne, rfl⟩

/-- C2 witness: user `A` joins board `B1` on connection `0` in the empty
hub — registry size `1`, presence count `1`, and `A` receives
`user_joined` describing itself. -/
theorem upgrade_success_behavior_witness :
    handleWebSocket (fun t => if t = "tok" then some ⟨"A", "alice", "Alice"⟩ else none)
        (fun b u => b == "B1" && u == "A") (some "tok") (some "B1") 0 ⟨[], []⟩
      = ⟨101, ⟨[0], [(0, ⟨"A", "Alice"⟩)]⟩, [(0, userJoinedEvent ⟨"A", "Alice"⟩ 1)]⟩ :=
  ((upgrade_success_behavior
      (fun t => if t = "tok" then some ⟨"A", "alice", "Alice"⟩ else none)
      (fun b u => b == "B1" && u == "A") "tok" "B1" 0 ⟨[], []⟩
      ⟨"A", "alice", "Alice"⟩ (by decide) (by decide) (by decide) (by decide)
      (by decide)).1).trans (by decide)

/-- C3: a missing `token` or `boardId` answers `400`, a token that resolves
to no live session answers `401`, and a resolved user without board
membership answers `403`; in each failure case the returned state is exactly
the input state and no delivery is attempted, so the registry (and hence the
presence count) is as it was before the request. -/
theorem upgrade_failure_behavior (rs : String → Option SessionRow)
    (im : String → String → Bool) (token boardId : Option String)
    (server : Nat) (s : HubState) :
    ((token = none ∨ boardId = none) →
        handleWebSocket rs im token boardId server s = ⟨400, s, []⟩)
      ∧ (∀ t b, token = some t → boardId = some b → ¬ t = "" → ¬ b = "" →
          rs t = none →
          handleWebSocket rs im token boardId server s = ⟨401, s, []⟩)
      ∧ (∀ t b row, token = some t → boardId = some b → ¬ t = "" → ¬ b = "" →
          rs t = some row → im b row.user_id = false →
          handleWebSocket rs im token boardId server s = ⟨403, s, []⟩) := by
  refine ⟨?_, ?_, ?_⟩
  · intro h
    cases token with
    | none => rfl
    | some t =>
      cases boardId with
      | none => rfl
      | some b => rcases h with h | h <;> exact Option.noConfusion h
  · intro t b htok hbid ht hb hrs
    subst htok; subst hbid
    have hcond : ¬ (t = "" ∨ b = "") := fun h => h.elim ht hb
    simp only [handleWebSocket, if_neg hcond, hrs]
  · intro t b row htok hbid ht hb hrs him
    subst htok; subst hbid
    have hcond : ¬ (t = "" ∨ b = "") := fun h => h.elim ht hb
    simp only [handleWebSocket, if_neg hcond, hrs, him, Bool.false_eq_true,
      if_false]

/-- C3 witness: the three failure paths at concrete inputs — missing token,
unknown token, and a valid session without membership — each leave the
one-user registry untouched. -/
theorem upgrade_failure_behavior_witness :
    handleWebSocket (fun _ => none) (fun _ _ => false) none (some "B1") 3
        ⟨[0], [(0, ⟨"A", "Alice"⟩)]⟩
      = ⟨400, ⟨[0], [(0, ⟨"A", "Alice"⟩)]⟩, []⟩
    ∧ handleWebSocket (fun _ => none) (fun _ _ => false) (some "bad") (some "B1") 3
        ⟨[0], [(0, ⟨"A", "Alice"⟩)]⟩
      = ⟨401, ⟨[0], [(0, ⟨"A", "Alice"⟩)]⟩, []⟩
    ∧ handleWebSocket (fun t => if t = "tok" then some ⟨"B", "bob", "Bob"⟩ else none)
        (fun _ _ => false) (some "tok") (some "B1") 3
        ⟨[0], [(0, ⟨"A", "Alice"⟩)]⟩
      = ⟨403, ⟨[0], [(0, ⟨"A", "Alice"⟩)]⟩, []⟩ :=
  ⟨(upgrade_failure_behavior (fun _ => none) (fun _ _ => false) none (some "B1") 3
      ⟨[0], [(0, ⟨"A", "Alice"⟩)]⟩).1 (Or.inl rfl),
    (upgrade_failure_behavior (fun _ => none) (fun _ _ => false) (some "bad")
      (some "B1") 3 ⟨[0], [(0, ⟨"A", "Alice"⟩)]⟩).2.1 "bad" "B1" rfl rfl
      (by decide) (by decide) rfl,
    (upgrade_failure_behavior (fun t => if t = "tok" then some ⟨"B", "bob", "Bob"⟩ else none)
      (fun _ _ => false) (some "tok") (some "B1") 3
      ⟨[0], [(0, ⟨"A", "Alice"⟩)]⟩).2.2 "tok" "B1" ⟨"B", "bob", "Bob"⟩ rfl rfl
      (by decide) (by decide) (by decide) rfl⟩

/-- C4: a broadcast excluding its originating connection `x` never delivers
back to `x` while every other connection of the hub's connection set is
attempted; in particular a client-message broadcast never reaches its sender
(third and fourth conjuncts), and the `user_joined` announcement broadcast —
everything `handleWebSocket` sends beyond the direct reply to the new
connection — never reaches the new connection (last conjunct). -/
theorem broadcast_excludes_originator (conns : List Nat) (msg : Event)
    (x : Nat) (s : HubState) (data : Event) (ident : Identity)
    (rs : String → Option SessionRow) (im : String → String → Bool)
    (token boardId : Option String) :
    (∀ e, (x, e) ∉ broadcast conns msg (some x))
      ∧ (∀ c ∈ conns, ¬ c = x → (c, msg) ∈ broadcast conns msg (some x))
      ∧ (¬ data.type = "ping" →
          ∀ e, (x, e) ∉ (webSocketMessage s x (some data)).2)
      ∧ (mapGet s.sessions x = some ident → ¬ data.type = "ping" →
          ∀ c ∈ s.conns, ¬ c = x →
            ∃ e, (c, e) ∈ (webSocketMessage s x (some data)).2)
      ∧ (∀ e, (x, e) ∉ ((handleWebSocket rs im token boardId x s).sent).drop 1) := by
  refine ⟨fun e => broadcast_not_self conns msg x e, ?_, ?_, ?_, ?_⟩
  · intro c hc hcx
    exact (mem_broadcast conns msg (some x) c msg).mpr ⟨hc, by simpa using hcx, rfl⟩
  · intro hping e
    cases hsess : mapGet s.sessions x with
    | none => simp [webSocketMessage, hsess]
    | some who =>
      simp only [webSocketMessage, hsess, if_neg hping]
      by_cases hc : cursorDragType data.type = true
      · simp only [if_pos hc]
        exact broadcast_not_self _ _ _ _
      · simp only [if_neg hc]
        exact broadcast_not_self _ _ _ _
  · intro hsess hping c hc hcx
    simp only [webSocketMessage, hsess, if_neg hping]
    by_cases hcd : cursorDragType data.type = true
    · simp only [if_pos hcd]
      exact ⟨_, (mem_broadcast _ _ _ _ _).mpr ⟨hc, by simpa using hcx, rfl⟩⟩
    · simp only [if_neg hcd]
      exact ⟨_, (mem_broadcast _ _ _ _ _).mpr ⟨hc, by simpa using hcx, rfl⟩⟩
  · intro e
    cases token with
    | none => simp [handleWebSocket]
    | some t =>
      cases boardId with
      | none => simp [handleWebSocket]
      | some b =>
        by_cases hcond : t = "" ∨ b = ""
        · simp [handleWebSocket, if_pos hcond]
        · cases hrs : rs t with
          | none => simp [handleWebSocket, if_neg hcond, hrs]
          | some row =>
            by_cases him : im b row.user_id = true
            · simp only [handleWebSocket, if_neg hcond, hrs, him, if_true,
                UpgradeOutcome.sent, List.drop_succ_cons, List.drop_zero]
              exact broadcast_not_self _ _ _ _
            · have him' : im b row.user_id = false := by
                cases h : im b row.user_id
                · rfl
                · exact absurd h him
              simp [handleWebSocket, if_neg hcond, hrs, him']

/-- C4 witness: in a two-connection hub, a `cursor_move` from connection `0`
is not delivered back to `0`, while connection `1` is attempted. -/
theorem broadcast_excludes_originator_witness :
    (∀ e, ((0 : Nat), e)
        ∉ broadcast [0, 1] ⟨"cursor_move", []⟩ (some 0))
    ∧ (¬ (⟨"cursor_move", ([] : JObj)⟩ : Event).type = "ping"
       ∧ ∀ e, ((0 : Nat), e)
          ∉ (webSocketMessage ⟨[0, 1], [(0, ⟨"A", "Alice"⟩), (1, ⟨"B", "Bob"⟩)]⟩ 0
              (some ⟨"cursor_move", []⟩)).2) :=
  ⟨(broadcast_excludes_originator [0, 1] ⟨"cursor_move", []⟩ 0
      ⟨[0, 1], [(0, ⟨"A", "Alice"⟩), (1, ⟨"B", "Bob"⟩)]⟩ ⟨"cursor_move", []⟩
      ⟨"A", "Alice"⟩ (fun _ => none) (fun _ _ => false) none none).1,
    by decide,
    (broadcast_excludes_originator [0, 1] ⟨"cursor_move", []⟩ 0
      ⟨[0, 1], [(0, ⟨"A", "Alice"⟩), (1, ⟨"B", "Bob"⟩)]⟩ ⟨"cursor_move", []⟩
      ⟨"A", "Alice"⟩ (fun _ => none) (fun _ _ => false) none none).2.2.1
      (by decide)⟩

/-- C5 counterexample: in a hub where user `A` (connection `0`) and user `B`
(connection `1`) are registered, the error signal for connection `0` removes
the registration but attempts no delivery at all, whereas the claim requires
the `user_left` broadcast to the remaining connection `1` (which would be the
nonempty list computed in the last conjunct). -/
theorem error_signal_no_user_left_counterexample :
    mapGet [(0, ⟨"A", "Alice"⟩), (1, ⟨"B", "Bob"⟩)] 0 = some ⟨"A", "Alice"⟩
    ∧ (webSocketError ⟨[0, 1], [(0, ⟨"A", "Alice"⟩), (1, ⟨"B", "Bob"⟩)]⟩ 0).2 = []
    ∧ ¬ (webSocketError ⟨[0, 1], [(0, ⟨"A", "Alice"⟩), (1, ⟨"B", "Bob"⟩)]⟩ 0).2
        = broadcast ([0, 1].erase 0)
            (userLeftEvent ⟨"A", "Alice"⟩
              (uniqueUserCount (mapDelete [(0, ⟨"A", "Alice"⟩), (1, ⟨"B", "Bob"⟩)] 0)))
            none := by
  decide

/-- C5 amended: every close signal removes the connection from the registry
unconditionally; if it had a registered identity the hub recomputes the
presence count from the shrunken registry and broadcasts `user_left` with
that identity's `userId`, `username` and the new count to all remaining
connections, and closing an already-removed connection is a no-op (no
broadcast, registry unchanged).  An error signal removes the connection from
the registry unconditionally but never broadcasts `user_left`. -/
theorem close_and_error_behavior (s : HubState) (ws : Nat) :
    (∀ ident, mapGet s.sessions ws = some ident →
        webSocketClose s ws
          = (⟨s.conns.erase ws, mapDelete s.sessions ws⟩,
              broadcast (s.conns.erase ws)
                (userLeftEvent ident (uniqueUserCount (mapDelete s.sessions ws)))
                none))
      ∧ (mapGet s.sessions ws = none →
          webSocketClose s ws = (⟨s.conns.erase ws, s.sessions⟩, []))
      ∧ webSocketError s ws = (⟨s.conns.erase ws, mapDelete s.sessions ws⟩, []) := by
  refine ⟨?_, ?_, rfl⟩
  · intro ident h
    simp only [webSocketClose, h]
  · intro h
    simp only [webSocketClose, h, mapDelete_absent s.sessions ws h]

/-- C5 witness: `A` (connection `0`) disconnects while `B` (connection `1`)
remains — `B` receives `user_left{userId: A, onlineCount: 1}`; closing the
already-removed connection `5` changes nothing and broadcasts nothing; the
error signal for connection `0` removes it silently. -/
theorem close_and_error_behavior_witness :
    webSocketClose ⟨[0, 1], [(0, ⟨"A", "Alice"⟩), (1, ⟨"B", "Bob"⟩)]⟩ 0
      = (⟨[1], [(1, ⟨"B", "Bob"⟩)]⟩, [(1, userLeftEvent ⟨"A", "Alice"⟩ 1)])
    ∧ webSocketClose ⟨[0, 1], [(0, ⟨"A", "Alice"⟩), (1, ⟨"B", "Bob"⟩)]⟩ 5
      = (⟨[0, 1], [(0, ⟨"A", "Alice"⟩), (1, ⟨"B", "Bob"⟩)]⟩, [])
    ∧ webSocketError ⟨[0, 1], [(0, ⟨"A", "Alice"⟩), (1, ⟨"B", "Bob"⟩)]⟩ 0
      = (⟨[1], [(1, ⟨"B", "Bob"⟩)]⟩, []) :=
  ⟨((close_and_error_behavior ⟨[0, 1], [(0, ⟨"A", "Alice"⟩), (1, ⟨"B", "Bob"⟩)]⟩ 0).1
      ⟨"A", "Alice"⟩ (by decide)).trans (by decide),
    ((close_and_error_behavior ⟨[0, 1], [(0, ⟨"A", "Alice"⟩), (1, ⟨"B", "Bob"⟩)]⟩ 5).2.1
      (by decide)).trans (by decide),
    ((close_and_error_behavior ⟨[0, 1], [(0, ⟨"A", "Alice"⟩), (1, ⟨"B", "Bob"⟩)]⟩ 0).2.2).trans
      (by decide)⟩

/-- C6: an event pushed through the `POST /broadcast` relay entry point is
attempted at every accepted connection with no excluded connection, every
delivered pair carries the posted event verbatim, and therefore — under the
transport invariant that every registered connection is in the accepted set
(the accepted set may be a superset of the registry) — every connection
currently registered in the hub receives the event. -/
theorem relay_delivers_to_all_registered (s : HubState) (message : Event) :
    (∀ c ∈ s.conns, (c, message) ∈ (relayFetch s message).2.1)
      ∧ (∀ p ∈ (relayFetch s message).2.1, p.2 = message)
      ∧ ((∀ c ident, mapGet s.sessions c = some ident → c ∈ s.conns) →
          ∀ c ident, mapGet s.sessions c = some ident →
            (c, message) ∈ (relayFetch s message).2.1) := by
  refine ⟨?_, ?_, ?_⟩
  · intro c hc
    exact (mem_broadcast s.conns message none c message).mpr ⟨hc, by simp, rfl⟩
  · intro p hp
    exact broadcast_snd s.conns message none p hp
  · intro hwf c ident hreg
    exact (mem_broadcast s.conns message none c message).mpr
      ⟨hwf c ident hreg, by simp, rfl⟩

/-- C6 witness: a `card_created` relay on a two-connection hub reaches both
registered connections unchanged. -/
theorem relay_delivers_to_all_registered_witness :
    ((0 : Nat), (⟨"card_created", [("cardId", .str "c1")]⟩ : Event))
        ∈ (relayFetch ⟨[0, 1], [(0, ⟨"A", "Alice"⟩), (1, ⟨"B", "Bob"⟩)]⟩
            ⟨"card_created", [("cardId", .str "c1")]⟩).2.1
    ∧ ((1 : Nat), (⟨"card_created", [("cardId", .str "c1")]⟩ : Event))
        ∈ (relayFetch ⟨[0, 1], [(0, ⟨"A", "Alice"⟩), (1, ⟨"B", "Bob"⟩)]⟩
            ⟨"card_created", [("cardId", .str "c1")]⟩).2.1 :=
  ⟨(relay_delivers_to_all_registered
      ⟨[0, 1], [(0, ⟨"A", "Alice"⟩), (1, ⟨"B", "Bob"⟩)]⟩
      ⟨"card_created", [("cardId", .str "c1")]⟩).2.2
      (by
        intro c ident h
        simp only [mapGet] at h
        by_cases h0 : (0 : Nat) = c
        · subst h0; simp
        · rw [if_neg h0] at h
          by_cases h1 : (1 : Nat) = c
          · subst h1; simp
          · rw [if_neg h1] at h
            exact Option.noConfusion h)
      0 ⟨"A", "Alice"⟩ (by decide),
    (relay_delivers_to_all_registered
      ⟨[0, 1], [(0, ⟨"A", "Alice"⟩), (1, ⟨"B", "Bob"⟩)]⟩
      ⟨"card_created", [("cardId", .str "c1")]⟩).2.2
      (by
        intro c ident h
        simp only [mapGet] at h
        by_cases h0 : (0 : Nat) = c
        · subst h0; simp
        · rw [if_neg h0] at h
          by_cases h1 : (1 : Nat) = c
          · subst h1; simp
          · rw [if_neg h1] at h
            exact Option.noConfusion h)
      1 ⟨"B", "Bob"⟩ (by decide)⟩

/-- C7: a well-formed message from a registered connection is routed by
type — `ping` gets a direct `pong` reply to the sender and nothing is
broadcast, while any other type is broadcast to all other connections as an
event of the same type whose payload is the inbound payload merged with the
sender's `userId`, with the sender's `username` added exactly when the type
is one of `cursor_move`, `card_drag_start`, `card_drag_end`. -/
theorem message_routing_behavior (s : HubState) (ws : Nat) (data : Event)
    (ident : Identity) (hsess : mapGet s.sessions ws = some ident) :
    (data.type = "ping" →
        webSocketMessage s ws (some data) = (s, [(ws, ⟨"pong", []⟩)]))
      ∧ (¬ data.type = "ping" →
          webSocketMessage s ws (some data)
            = (s, broadcast s.conns
                ⟨data.type,
                  if cursorDragType data.type then
                    setField (setField data.payload "userId" (.str ident.userId))
                      "username" (.str ident.username)
                  else setField data.payload "userId" (.str ident.userId)⟩
                (some ws))) := by
  refine ⟨?_, ?_⟩
  · intro h
    simp only [webSocketMessage, hsess, if_pos h]
  · intro h
    simp only [webSocketMessage, hsess, if_neg h]
    by_cases hc : cursorDragType data.type = true
    · rw [if_pos hc, if_pos hc]
    · rw [if_neg hc, if_neg hc]

/-- C7 witness: with `A` on connection `0` and `B` on connection `1`, a
`ping` from `A` is answered by a direct `pong` with no broadcast, and
`cursor_move{x:5, y:9}` from `A` reaches exactly `B` as
`cursor_move{x:5, y:9, userId:"A", username:"Alice"}`. -/
theorem message_routing_behavior_witness :
    webSocketMessage ⟨[0, 1], [(0, ⟨"A", "Alice"⟩), (1, ⟨"B", "Bob"⟩)]⟩ 0
        (some ⟨"ping", []⟩)
      = (⟨[0, 1], [(0, ⟨"A", "Alice"⟩), (1, ⟨"B", "Bob"⟩)]⟩, [(0, ⟨"pong", []⟩)])
    ∧ webSocketMessage ⟨[0, 1], [(0, ⟨"A", "Alice"⟩), (1, ⟨"B", "Bob"⟩)]⟩ 0
        (some ⟨"cursor_move", [("x", .num 5), ("y", .num 9)]⟩)
      = (⟨[0, 1], [(0, ⟨"A", "Alice"⟩), (1, ⟨"B", "Bob"⟩)]⟩,
          [(1, ⟨"cursor_move",
            [("x", .num 5), ("y", .num 9), ("userId", .str "A"),
             ("username", .str "Alice")]⟩)]) :=
  ⟨(message_routing_behavior ⟨[0, 1], [(0, ⟨"A", "Alice"⟩), (1, ⟨"B", "Bob"⟩)]⟩ 0
      ⟨"ping", []⟩ ⟨"A", "Alice"⟩ (by decide)).1 (by decide),
    ((message_routing_behavior ⟨[0, 1], [(0, ⟨"A", "Alice"⟩), (1, ⟨"B", "Bob"⟩)]⟩ 0
      ⟨"cursor_move", [("x", .num 5), ("y", .num 9)]⟩ ⟨"A", "Alice"⟩
      (by decide)).2 (by decide)).trans (by decide)⟩

/-- C8: a message from a connection that is not currently registered is
silently dropped — state unchanged (connection set included, so nothing is
closed) and nothing delivered — and a frame that fails `JSON.parse` (the
`none` argument; the `catch` block only logs) is likewise dropped with no
broadcast, no registry mutation, and no error surfaced to the transport. -/
theorem unregistered_or_malformed_dropped (s : HubState) (ws : Nat)
    (m : Option Event) :
    (mapGet s.sessions ws = none → webSocketMessage s ws m = (s, []))
      ∧ webSocketMessage s ws none = (s, []) := by
  refine ⟨?_, ?_⟩
  · intro h
    simp only [webSocketMessage, h]
  · cases hsess : mapGet s.sessions ws with
    | none => simp only [webSocketMessage, hsess]
    | some who => simp only [webSocketMessage, hsess]

/-- C8 witness: an unregistered connection `5` sending a well-formed frame,
and the registered connection `0` sending an unparseable frame, both leave
the hub unchanged with no deliveries. -/
theorem unregistered_or_malformed_dropped_witness :
    webSocketMessage ⟨[0, 1], [(0, ⟨"A", "Alice"⟩), (1, ⟨"B", "Bob"⟩)]⟩ 5
        (some ⟨"cursor_move", [("x", .num 5)]⟩)
      = (⟨[0, 1], [(0, ⟨"A", "Alice"⟩), (1, ⟨"B", "Bob"⟩)]⟩, [])
    ∧ webSocketMessage ⟨[0, 1], [(0, ⟨"A", "Alice"⟩), (1, ⟨"B", "Bob"⟩)]⟩ 0 none
      = (⟨[0, 1], [(0, ⟨"A", "Alice"⟩), (1, ⟨"B", "Bob"⟩)]⟩, []) :=
  ⟨(unregistered_or_malformed_dropped
      ⟨[0, 1], [(0, ⟨"A", "Alice"⟩), (1, ⟨"B", "Bob"⟩)]⟩ 5
      (some ⟨"cursor_move", [("x", .num 5)]⟩)).1 (by decide),
    (unregistered_or_malformed_dropped
      ⟨[0, 1], [(0, ⟨"A", "Alice"⟩), (1, ⟨"B", "Bob"⟩)]⟩ 0 none).2⟩

theorem getField_append_some (a b : JObj) (k : String) (v : JVal)
    (h : getField a k = some v) : getField (a ++ b) k = some v := by
  induction a with
  | nil => exact Option.noConfusion h
  | cons q rest ih =>
    by_cases hq : q.1 = k
    · simp only [getField, if_pos hq] at h
      simp only [List.cons_append, getField, if_pos hq]
      exact h
    · simp only [getField, if_neg hq] at h
      simp only [List.cons_append, getField, if_neg hq]
      exact ih h

theorem cursorDragType_not_ping (t : String) (h : cursorDragType t = true) :
    ¬ t = "ping" := by
  simp only [cursorDragType, Bool.or_eq_true, beq_iff_eq] at h
  rcases h with (h | h) | h <;> subst h <;> decide

theorem eraseKey_single_ne (k k' : String) (v : JVal) (h : ¬ k = k') :
    eraseKey [(k, v)] k' = [(k, v)] := by
  simp only [eraseKey, if_neg h]

theorem setField2_congr (p1 p2 : JObj) (u n : JVal)
    (h : eraseKey (eraseKey p1 "userId") "username"
          = eraseKey (eraseKey p2 "userId") "username") :
    setField (setField p1 "userId" u) "username" n
      = setField (setField p2 "userId" u) "username" n := by
  unfold setField
  rw [eraseKey_append, eraseKey_append,
    eraseKey_single_ne "userId" "username" u (by decide), h]

/-- C9: the identity fields of a broadcast client message are taken from the
sender's registered identity, not from the inbound payload — every delivered
event carries `userId` equal to the authenticated `userId` (first conjunct)
and, for cursor/drag types, `username` equal to the authenticated `username`
(second conjunct), even when the client supplied its own values for those
fields; and two inbound payloads of the same non-`ping` type that differ only
in those identity fields produce identical outbound deliveries (third
conjunct). -/
theorem identity_fields_from_registry (s : HubState) (ws : Nat)
    (ident : Identity) (data1 data2 : Event)
    (hsess : mapGet s.sessions ws = some ident) :
    (¬ data1.type = "ping" →
        ∀ p ∈ (webSocketMessage s ws (some data1)).2,
          getField p.2.payload "userId" = some (.str ident.userId))
      ∧ (cursorDragType data1.type = true →
          ∀ p ∈ (webSocketMessage s ws (some data1)).2,
            getField p.2.payload "username" = some (.str ident.username))
      ∧ (data1.type = data2.type → ¬ data1.type = "ping" →
          (if cursorDragType data1.type then
              eraseKey (eraseKey data1.payload "userId") "username"
                = eraseKey (eraseKey data2.payload "userId") "username"
            else eraseKey data1.payload "userId" = eraseKey data2.payload "userId") →
          webSocketMessage s ws (some data1) = webSocketMessage s ws (some data2)) := by
  refine ⟨?_, ?_, ?_⟩
  · intro hping p hp
    simp only [webSocketMessage, hsess, if_neg hping] at hp
    by_cases hc : cursorDragType data1.type = true
    · rw [if_pos hc] at hp
      rw [broadcast_snd _ _ _ _ hp]
      show getField (setField (setField data1.payload "userId" (.str ident.userId))
        "username" (.str ident.username)) "userId" = some (.str ident.userId)
      unfold setField
      exact getField_append_some _ _ _ _
        ((getField_eraseKey_ne _ "username" "userId" (by decide)).trans
          (getField_setField_self data1.payload "userId" (.str ident.userId)))
    · rw [if_neg hc] at hp
      rw [broadcast_snd _ _ _ _ hp]
      exact getField_setField_self data1.payload "userId" (.str ident.userId)
  · intro hc p hp
    simp only [webSocketMessage, hsess,
      if_neg (cursorDragType_not_ping data1.type hc), if_pos hc] at hp
    rw [broadcast_snd _ _ _ _ hp]
    exact getField_setField_self _ "username" (.str ident.username)
  · intro htype hping hstrip
    simp only [webSocketMessage, hsess, if_neg hping, if_neg (htype ▸ hping)]
    rw [← htype]
    by_cases hc : cursorDragType data1.type = true
    · rw [if_pos hc] at hstrip ⊢
      rw [if_pos hc, setField2_congr data1.payload data2.payload _ _ hstrip]
    · rw [if_neg hc] at hstrip ⊢
      rw [if_neg hc]
      show (s, broadcast s.conns
          ⟨data1.type, eraseKey data1.payload "userId" ++ [("userId", .str ident.userId)]⟩
          (some ws))
        = (s, broadcast s.conns
            ⟨data1.type, eraseKey data2.payload "userId" ++ [("userId", .str ident.userId)]⟩
            (some ws))
      rw [hstrip]

/-- C9 witness: a `cursor_move` whose payload spoofs `userId`/`username` and
the same message without the spoofed fields produce identical deliveries, and
the delivered identity fields are the registered ones. -/
theorem identity_fields_from_registry_witness :
    webSocketMessage ⟨[0, 1], [(0, ⟨"A", "Alice"⟩), (1, ⟨"B", "Bob"⟩)]⟩ 0
        (some ⟨"cursor_move",
          [("x", .num 5), ("userId", .str "EVIL"), ("username", .str "Mallory")]⟩)
      = webSocketMessage ⟨[0, 1], [(0, ⟨"A", "Alice"⟩), (1, ⟨"B", "Bob"⟩)]⟩ 0
          (some ⟨"cursor_move", [("x", .num 5)]⟩)
    ∧ ∀ p ∈ (webSocketMessage ⟨[0, 1], [(0, ⟨"A", "Alice"⟩), (1, ⟨"B", "Bob"⟩)]⟩ 0
          (some ⟨"cursor_move",
            [("x", .num 5), ("userId", .str "EVIL"), ("username", .str "Mallory")]⟩)).2,
        getField p.2.payload "userId" = some (.str "A") :=
  ⟨(identity_fields_from_registry
      ⟨[0, 1], [(0, ⟨"A", "Alice"⟩), (1, ⟨"B", "Bob"⟩)]⟩ 0 ⟨"A", "Alice"⟩
      ⟨"cursor_move",
        [("x", .num 5), ("userId", .str "EVIL"), ("username", .str "Mallory")]⟩
      ⟨"cursor_move", [("x", .num 5)]⟩ (by decide)).2.2 rfl (by decide) (by decide),
    (identity_fields_from_registry
      ⟨[0, 1], [(0, ⟨"A", "Alice"⟩), (1, ⟨"B", "Bob"⟩)]⟩ 0 ⟨"A", "Alice"⟩
      ⟨"cursor_move",
        [("x", .num 5), ("userId", .str "EVIL"), ("username", .str "Mallory")]⟩
      ⟨"cursor_move", [("x", .num 5)]⟩ (by decide)).1 (by decide)⟩

end Kanban
